import Mathlib

/-!
Shallow embedding of the tariff duty calculation engine of this repository
(`duty_calculator.py`, plus the batch loop of `app.py` and
`hts_agent.py`'s `quick_duty_calculation`).

Modelling conventions:
* Python `float` currency arithmetic is modelled over `ℚ` (the spec states the
  arithmetic identities exactly); Python `int` is `ℤ`.
* Python strings are Lean `String`s; `str.strip()` and `str.lower()` are
  modelled on character lists by `trimChars` and `lowerChars` (ASCII-faithful
  on the data the engine handles).
* `re.search` for the three concrete patterns of `parse_duty_rate` is modelled
  by dedicated leftmost-match scanners (`searchPercent`, `searchCentsKg`,
  `searchDollar`) whose per-position semantics reproduce the backtracking
  behaviour of the Python regexes `(\d+\.?\d*)%`, `(\d+\.?\d*)¢?/kg`
  and `\$(\d+\.?\d*)`.
* The SQLite store consulted by `get_hts_data` is modelled as an ordered list
  of tables (each an ordered list of rows); the `try/except` that degrades any
  operational failure to `None` is modelled by wrapping the store in
  `Except String`.  SQL `LIKE '%code%'` is a case-insensitive substring test
  and `NULL` column values never match, so row columns are `Option String`.
* Exceptions raised by Python code (`KeyError` on the breakdown dict,
  `TypeError` on string + float, `ValueError` from `float(...)`) are modelled
  with `Except String`.
-/

/-- `leadsChars pat l` is true when `pat` is an initial segment of `l`. -/
def leadsChars : List Char → List Char → Bool
  | [], _ => true
  | _ :: _, [] => false
  | a :: as, b :: bs => a == b && leadsChars as bs

/-- `occursIn pat l`: `pat` occurs as a contiguous run inside `l`
(Python's `pat in s`, SQL's `LIKE '%pat%'` after case folding). -/
def occursIn (pat : List Char) : List Char → Bool
  | [] => pat.isEmpty
  | c :: rest => leadsChars pat (c :: rest) || occursIn pat rest

/-- Numeric value of a (most-significant-first) list of ASCII digits. -/
def natOfDigits (l : List Char) : Nat :=
  l.foldl (fun n c => 10 * n + (c.toNat - 48)) 0

/-- Value of a regex group of shape `D+` or `D+ '.' D*`, as Python `float`
would read it (exact, over `ℚ`). -/
def floatOfGroup (g : List Char) : ℚ :=
  let (ip, r) := g.span Char.isDigit
  match r with
  | '.' :: fp => (natOfDigits ip : ℚ) + (natOfDigits fp : ℚ) / ((10 : ℚ) ^ fp.length)
  | _ => (natOfDigits ip : ℚ)

/-- Match of the regex `(\d+\.?\d*)%` anchored at the head of `l`; returns the
captured numeric group.  The backtracking of the Python regex collapses to:
take the maximal digit run, optionally a dot plus the maximal following digit
run, and require `%` immediately after. -/
def matchPercentAt (l : List Char) : Option (List Char) :=
  let (d1, r1) := l.span Char.isDigit
  if d1.isEmpty then none
  else
    match r1 with
    | '%' :: _ => some d1
    | '.' :: r2 =>
      let (d2, r3) := r2.span Char.isDigit
      match r3 with
      | '%' :: _ => some (d1 ++ '.' :: d2)
      | _ => none
    | _ => none

/-- Tail test `¢?/kg` of the cents-per-kilogram regex. -/
def centsTail (num r : List Char) : Option (List Char) :=
  match r with
  | '¢' :: '/' :: 'k' :: 'g' :: _ => some num
  | '/' :: 'k' :: 'g' :: _ => some num
  | _ => none

/-- Match of the regex `(\d+\.?\d*)¢?/kg` anchored at the head of `l`. -/
def matchCentsAt (l : List Char) : Option (List Char) :=
  let (d1, r1) := l.span Char.isDigit
  if d1.isEmpty then none
  else
    match r1 with
    | '.' :: r2 =>
      let (d2, r3) := r2.span Char.isDigit
      centsTail (d1 ++ '.' :: d2) r3
    | _ => centsTail d1 r1

/-- Match of the regex `\$(\d+\.?\d*)` anchored at the head of `l`. -/
def matchDollarAt (l : List Char) : Option (List Char) :=
  match l with
  | '$' :: r =>
    let (d1, r1) := r.span Char.isDigit
    if d1.isEmpty then none
    else
      match r1 with
      | '.' :: r2 => some (d1 ++ '.' :: (r2.span Char.isDigit).1)
      | _ => some d1
  | _ => none

/-- `re.search`: try the anchored matcher at every position, leftmost first
(including the empty final position, where none of our matchers succeed). -/
def searchFrom (m : List Char → Option (List Char)) : List Char → Option (List Char)
  | [] => m []
  | c :: rest =>
    match m (c :: rest) with
    | some g => some g
    | none => searchFrom m rest

/-- `re.search(r'(\d+\.?\d*)%', s)`, returning the captured group. -/
def searchPercent (l : List Char) : Option (List Char) :=
  searchFrom matchPercentAt l

/-- `re.search(r'(\d+\.?\d*)¢?/kg', s)`, returning the captured group. -/
def searchCentsKg (l : List Char) : Option (List Char) :=
  searchFrom matchCentsAt l

/-- `re.search(r'\$(\d+\.?\d*)', s)`, returning the captured group. -/
def searchDollar (l : List Char) : Option (List Char) :=
  searchFrom matchDollarAt l

/-- Python whitespace for `str.strip()`. -/
def isWs (c : Char) : Bool :=
  c == ' ' || c == '\t' || c == '\n' || c == '\r' || c == '\x0b' || c == '\x0c'

/-- `str.strip()` on the character list. -/
def trimChars (l : List Char) : List Char :=
  ((l.dropWhile isWs).reverse.dropWhile isWs).reverse

/-- `str.lower()` on the character list (ASCII case folding, as used here). -/
def lowerChars (l : List Char) : List Char := l.map Char.toLower

/-- `duty_rate.strip().lower()` — the normalization `parse_duty_rate` applies
before all pattern checks. -/
def normChars (l : List Char) : List Char := lowerChars (trimChars l)

/-- Body of `DutyCalculator.parse_duty_rate` after the falsy/NaN guard and the
normalization: the ordered pattern checks on the normalized string. -/
def parseCore (s : List Char) : String × ℚ :=
  if occursIn "free".data s || s == "0".data then ("free", 0)
  else
    match searchPercent s with
    | some g => ("percentage", floatOfGroup g)
    | none =>
      match searchCentsKg s with
      | some g => ("cents_per_kg", floatOfGroup g)
      | none =>
        match searchDollar s with
        | some g => ("dollars_per_unit", floatOfGroup g)
        | none => ("free", 0)

/-- `DutyCalculator.parse_duty_rate`.  `none` stands for an absent / NaN rate
cell (Python `None` or a value with `pd.isna`); the empty string is falsy in
Python and is caught by the same guard. -/
def parse_duty_rate (o : Option String) : String × ℚ :=
  match o with
  | none => ("free", 0)
  | some s0 => if s0 == "" then ("free", 0) else parseCore (normChars s0.data)

/-- One schedule row, as the dict produced by `df.iloc[0].to_dict()`.  The two
code columns matched by `get_hts_data`'s SQL and the two columns read by
`calculate_duty`; `none` models a missing column or a SQL `NULL` / NaN cell.
Further schedule-specific columns are never read by the engine and are
omitted. -/
structure Row where
  hts_code : Option String := none
  hts_number : Option String := none
  duty_rate : Option String := none
  product_description : Option String := none
  deriving DecidableEq, Repr

/-- The schedule store seen by the engine: the ordered list of tables of the
SQLite database (each an ordered list of rows).  The `Except` layer models the
`try/except` boundary of `get_hts_data`: `error` is any operational failure
(store unavailable, malformed table) raised inside the `try` block. -/
def ScheduleDB : Type := Except String (List (List Row))

/-- SQL `col LIKE '%code%'` — case-insensitive substring test, false on
`NULL`. -/
def likeContains (code : String) (col : Option String) : Bool :=
  match col with
  | none => false
  | some v => occursIn (lowerChars code.data) (lowerChars v.data)

/-- The `WHERE hts_code LIKE ? OR hts_number LIKE ?` predicate of
`get_hts_data`. -/
def rowMatches (code : String) (r : Row) : Bool :=
  likeContains code r.hts_code || likeContains code r.hts_number

/-- The per-table query `SELECT * FROM t WHERE ... LIMIT 1` over the tables in
enumeration order: first matching row of the first table holding one. -/
def scanTables (code : String) : List (List Row) → Option Row
  | [] => none
  | t :: ts =>
    match t.find? (rowMatches code) with
    | some r => some r
    | none => scanTables code ts

/-- `DutyCalculator.get_hts_data`: scan all tables, return the first match;
any operational failure degrades to `none`. -/
def get_hts_data (db : ScheduleDB) (code : String) : Option Row :=
  match db with
  | .error _ => none
  | .ok tables => scanTables code tables

/-- `ProductInfo` dataclass. -/
structure ProductInfo where
  hts_code : String
  cost : ℚ
  freight : ℚ
  insurance : ℚ
  quantity : ℤ
  unit_weight : ℚ
  country_of_origin : String := "CN"
  deriving DecidableEq, Repr

/-- `DutyCalculation` dataclass; the `breakdown` dict is an insertion-ordered
association list. -/
structure DutyCalculation where
  hts_code : String
  product_description : String
  cif_value : ℚ
  duty_rate : String
  duty_amount : ℚ
  total_landed_cost : ℚ
  duty_type : String
  breakdown : List (String × ℚ)
  deriving DecidableEq, Repr

/-- `DutyCalculator._calculate_duty_amount`. -/
def calculate_duty_amount (duty_type : String) (duty_value cif_value : ℚ)
    (quantity : ℤ) (unit_weight : ℚ) : ℚ :=
  if duty_type = "free" then 0
  else if duty_type = "percentage" then (duty_value / 100) * cif_value
  else if duty_type = "cents_per_kg" then (duty_value / 100) * ((quantity : ℚ) * unit_weight)
  else if duty_type = "dollars_per_unit" then duty_value * (quantity : ℚ)
  else 0

/-- The not-found branch of `calculate_duty`: sentinel result with an empty
breakdown dict. -/
def notFoundCalc (code : String) : DutyCalculation :=
  { hts_code := code
    product_description := "HTS code not found"
    cif_value := 0
    duty_rate := "Unknown"
    duty_amount := 0
    total_landed_cost := 0
    duty_type := "unknown"
    breakdown := [] }

/-- The found branch of `calculate_duty`. -/
def foundCalc (p : ProductInfo) (hts_data : Row) : DutyCalculation :=
  let cif_value := p.cost + p.freight + p.insurance
  let duty_rate_str := hts_data.duty_rate.getD "Free"
  let td := parse_duty_rate (some duty_rate_str)
  let duty_amount := calculate_duty_amount td.1 td.2 cif_value p.quantity p.unit_weight
  let total_landed_cost := cif_value + duty_amount
  { hts_code := p.hts_code
    product_description := hts_data.product_description.getD "Unknown"
    cif_value := cif_value
    duty_rate := duty_rate_str
    duty_amount := duty_amount
    total_landed_cost := total_landed_cost
    duty_type := td.1
    breakdown :=
      [("product_cost", p.cost), ("freight", p.freight), ("insurance", p.insurance),
       ("cif_value", cif_value), ("duty_amount", duty_amount),
       ("total_landed_cost", total_landed_cost)] }

/-- `DutyCalculator.calculate_duty`. -/
def calculate_duty (db : ScheduleDB) (p : ProductInfo) : DutyCalculation :=
  match get_hts_data db p.hts_code with
  | none => notFoundCalc p.hts_code
  | some hts_data => foundCalc p hts_data

/-- Round a rational to the nearest integer, ties to even — the rounding of
Python's `'{:.2f}'.format` (applied after scaling by 100). -/
def roundHalfEvenQ (q : ℚ) : ℤ :=
  let f := Rat.floor q
  let r := q - (f : ℚ)
  if r < 1/2 then f
  else if 1/2 < r then f + 1
  else if 2 ∣ f then f else f + 1

/-- Zero-padded two-digit fraction part. -/
def padTwo (n : Nat) : String :=
  if n < 10 then "0" ++ toString n else toString n

/-- Python `f'{q:.2f}'`: two-decimal fixed-point rendering (sign, then the
rounded magnitude). -/
def formatQ2 (q : ℚ) : String :=
  let m := roundHalfEvenQ (|q| * 100)
  let core := toString (m / 100) ++ "." ++ padTwo (m % 100).toNat
  if q < 0 then "-" ++ core else core

/-- `dict[key]` on the breakdown dict: `KeyError` when absent. -/
def dictGet (d : List (String × ℚ)) (k : String) : Except String ℚ :=
  match List.lookup k d with
  | some v => Except.ok v
  | none => Except.error ("KeyError: " ++ k)

/-- `DutyCalculator.format_calculation_result`: the f-string template after
its trailing `.strip()`.  The four breakdown subscripts are evaluated in
template order and can raise `KeyError` (they do on the not-found result,
whose breakdown dict is empty). -/
def format_calculation_result (c : DutyCalculation) : Except String String := do
  let pc ← dictGet c.breakdown "product_cost"
  let fr ← dictGet c.breakdown "freight"
  let ins ← dictGet c.breakdown "insurance"
  let cif ← dictGet c.breakdown "cif_value"
  Except.ok
    ("HTS Code: " ++ c.hts_code ++
     "\nProduct: " ++ c.product_description ++
     "\n\nCost Breakdown:" ++
     "\n- Product Cost: $" ++ formatQ2 pc ++
     "\n- Freight: $" ++ formatQ2 fr ++
     "\n- Insurance: $" ++ formatQ2 ins ++
     "\n- CIF Value: $" ++ formatQ2 cif ++
     "\n\nDuty Calculation:" ++
     "\n- Duty Rate: " ++ c.duty_rate ++
     "\n- Duty Type: " ++ c.duty_type ++
     "\n- Duty Amount: $" ++ formatQ2 c.duty_amount ++
     "\n\nTotal Landed Cost: $" ++ formatQ2 c.total_landed_cost)

/-- A CSV cell as pandas hands it to the batch loop: numeric, or a string
when the column holds non-numeric text. -/
inductive Cell where
  | num (q : ℚ)
  | str (s : String)
  deriving DecidableEq, Repr

/-- One row of the uploaded batch CSV (`app.py`), with a possibly
non-numeric cost cell; the remaining numeric fields are taken well-typed. -/
structure BatchInput where
  hts_code : String
  cost : Cell
  freight : ℚ
  insurance : ℚ
  quantity : ℤ
  unit_weight : ℚ
  deriving DecidableEq, Repr

/-- The numeric value of a cell; adding a string cell to a float raises
`TypeError` in Python. -/
def cellToQ : Cell → Except String ℚ
  | .num q => Except.ok q
  | .str _ => Except.error "TypeError: can only concatenate str to str"

/-- Python `cost + freight + insurance`: `TypeError` when `cost` is a
string. -/
def cellCif (cost : Cell) (freight insurance : ℚ) : Except String ℚ := do
  let c ← cellToQ cost
  Except.ok (c + freight + insurance)

/-- `calculate_duty` as invoked on a batch row: the found branch raises
`TypeError` at the `cif_value` sum when `cost` is non-numeric; the not-found
branch never touches `cost`. -/
def calculate_duty_checked (db : ScheduleDB) (b : BatchInput) :
    Except String DutyCalculation :=
  match get_hts_data db b.hts_code with
  | none => Except.ok (notFoundCalc b.hts_code)
  | some hts_data => do
    let c ← cellToQ b.cost
    Except.ok (foundCalc
      { hts_code := b.hts_code, cost := c, freight := b.freight,
        insurance := b.insurance, quantity := b.quantity,
        unit_weight := b.unit_weight } hts_data)

/-- `HTSAgent.quick_duty_calculation`: calculation plus formatting inside a
`try`, any exception turned into an error STRING return value (never
raised). -/
def quick_duty_calculation (db : ScheduleDB) (b : BatchInput) : String :=
  match calculate_duty_checked db b >>= format_calculation_result with
  | Except.ok s => s
  | Except.error e => "Error calculating duty: " ++ e

/-- Python `s.split(c)` on character lists (always at least one piece). -/
def splitOnChar (c : Char) : List Char → List (List Char)
  | [] => [[]]
  | x :: rest =>
    if x == c then [] :: splitOnChar c rest
    else
      match splitOnChar c rest with
      | [] => [[x]]
      | l :: ls => (x :: l) :: ls

/-- Python `float(s)` on the strings produced here: strips whitespace, then
an optional sign and `D+ | D+.D* | .D+` (exponent and special forms never
arise in this pipeline); anything else raises `ValueError`. -/
def pyFloat (l : List Char) : Except String ℚ :=
  let t := trimChars l
  let (sgn, u) : ℚ × List Char :=
    match t with
    | '-' :: r => (-1, r)
    | '+' :: r => (1, r)
    | r => (1, r)
  let (d1, r1) := u.span Char.isDigit
  match r1 with
  | [] =>
    if d1.isEmpty then Except.error "ValueError: could not convert string to float"
    else Except.ok (sgn * (natOfDigits d1 : ℚ))
  | '.' :: r2 =>
    let (d2, r3) := r2.span Char.isDigit
    if r3.isEmpty && !(d1.isEmpty && d2.isEmpty) then
      Except.ok (sgn * ((natOfDigits d1 : ℚ) + (natOfDigits d2 : ℚ) / ((10 : ℚ) ^ d2.length)))
    else Except.error "ValueError: could not convert string to float"
  | _ => Except.error "ValueError: could not convert string to float"

/-- The label-scanning loop of `app.py`'s batch tab: walk the lines of the
formatted result, overwriting the two accumulators at each labelled line via
`float(line.split(':')[1].strip())`. -/
def extractAmounts : List (List Char) → ℚ → ℚ → Except String (ℚ × ℚ)
  | [], da, tc => Except.ok (da, tc)
  | line :: rest, da, tc =>
    if occursIn "Duty Amount:".data line then do
      let v ← pyFloat ((splitOnChar ':' line).getD 1 [])
      extractAmounts rest v tc
    else if occursIn "Total Landed Cost:".data line then do
      let v ← pyFloat ((splitOnChar ':' line).getD 1 [])
      extractAmounts rest da v
    else
      extractAmounts rest da tc

/-- One row of the batch results table built by `app.py` (the error column is
present only on failed rows). -/
structure ResultRow where
  htsCode : String
  productCost : Cell
  cifValue : ℚ
  dutyAmount : ℚ
  totalLandedCost : ℚ
  error : Option String
  deriving DecidableEq, Repr

/-- One iteration of the `for idx, row in df.iterrows()` batch loop of
`app.py`: call `quick_duty_calculation`, re-parse its text by label, then
build the success dict (whose CIF entry re-adds the raw cells); any exception
lands in the `except` branch, which records an error row with zeroed
amounts. -/
def processRow (db : ScheduleDB) (b : BatchInput) : ResultRow :=
  let result := quick_duty_calculation db b
  match (do
      let amounts ← extractAmounts (splitOnChar '\n' result.data) 0 0
      let cif ← cellCif b.cost b.freight b.insurance
      Except.ok (amounts, cif)) with
  | Except.ok ((da, tc), cif) =>
    { htsCode := b.hts_code, productCost := b.cost, cifValue := cif,
      dutyAmount := da, totalLandedCost := tc, error := none }
  | Except.error e =>
    { htsCode := b.hts_code, productCost := b.cost, cifValue := 0,
      dutyAmount := 0, totalLandedCost := 0, error := some e }

/-- The whole batch loop: one result row per input row, in input order. -/
def processBatch (db : ScheduleDB) (rows : List BatchInput) : List ResultRow :=
  rows.map (processRow db)

/-- The schedule record of the spec's end-to-end example: classification code
`0101.21.00` with rate text `5%`. -/
def exampleRow : Row :=
  { hts_code := some "0101.21.00", duty_rate := some "5%",
    product_description := some "Live purebred breeding horses" }

/-- A one-table store holding just `exampleRow`. -/
def exampleDB : ScheduleDB := Except.ok [[exampleRow]]

/-- The spec's end-to-end example shipment. -/
def exampleProduct : ProductInfo :=
  { hts_code := "0101.21.00", cost := 1000, freight := 100, insurance := 50,
    quantity := 10, unit_weight := 100 }

/-- The same shipment as a batch CSV row with a numeric cost. -/
def exampleBatchRow : BatchInput :=
  { hts_code := "0101.21.00", cost := Cell.num 1000, freight := 100,
    insurance := 50, quantity := 10, unit_weight := 100 }

/-- The same batch row with a non-numeric cost cell. -/
def badCostBatchRow : BatchInput :=
  { hts_code := "0101.21.00", cost := Cell.str "abc", freight := 100,
    insurance := 50, quantity := 10, unit_weight := 100 }

/-- The guard conditions of rule 1 of the parsing policy, on a present,
non-empty input: contains the word `free` (case-insensitively) or is
(trimmed) textually `0`. -/
def preFree (s : String) : Bool :=
  occursIn "free".data (normChars s.data) || normChars s.data == "0".data

/-- None of the three rate patterns matches the (trimmed, case-folded)
input. -/
def patternsNone (s : String) : Bool :=
  (searchPercent (normChars s.data)).isNone &&
  (searchCentsKg (normChars s.data)).isNone &&
  (searchDollar (normChars s.data)).isNone

/-- The full characterization of the inputs the parsing policy sends to
`Free`: missing, empty, word `free`, textual `0`, or no pattern matches. -/
def freeCond (o : Option String) : Bool :=
  match o with
  | none => true
  | some s0 => s0 == "" || preFree s0 || patternsNone s0

theorem occursIn_nil (l : List Char) : occursIn [] l = true := by
  induction l with
  | nil => simp [occursIn]
  | cons c rest ih => simp [occursIn, leadsChars, ih]

theorem scanTables_eq_none (code : String) (tables : List (List Row))
    (h : ∀ t ∈ tables, t.find? (rowMatches code) = none) :
    scanTables code tables = none := by
  induction tables with
  | nil => simp [scanTables]
  | cons t ts ih =>
    have ht : t.find? (rowMatches code) = none := h t (by simp)
    have hts : ∀ u ∈ ts, u.find? (rowMatches code) = none :=
      fun u hu => h u (by simp [hu])
    simp [scanTables, ht, ih hts]

theorem scanTables_append (code : String) (pre ts : List (List Row))
    (h : ∀ t ∈ pre, t.find? (rowMatches code) = none) :
    scanTables code (pre ++ ts) = scanTables code ts := by
  induction pre with
  | nil => simp
  | cons t pre' ih =>
    have ht : t.find? (rowMatches code) = none := h t (by simp)
    have hp : ∀ u ∈ pre', u.find? (rowMatches code) = none :=
      fun u hu => h u (by simp [hu])
    simp [scanTables, ht, ih hp]

theorem calculate_duty_found (db : ScheduleDB) (p : ProductInfo) (row : Row)
    (h : get_hts_data db p.hts_code = some row) :
    calculate_duty db p = foundCalc p row := by
  simp [calculate_duty, h]

/-- C4: the Schedule Lookup scans the registered tables in their stable
enumeration order testing a substring match on the code columns, returns the
first matching record (first-match across tables: with all tables before `t`
match-free, the result comes from `t`), and returns `none` both when no table
matches and when the lookup fails operationally (the `error` store). -/
theorem C4_lookup_first_match (code : String) :
    (∀ e, get_hts_data (Except.error e) code = none) ∧
    (∀ tables, (∀ t ∈ tables, t.find? (rowMatches code) = none) →
        get_hts_data (Except.ok tables) code = none) ∧
    (∀ pre t rest r, (∀ u ∈ pre, u.find? (rowMatches code) = none) →
        t.find? (rowMatches code) = some r →
        get_hts_data (Except.ok (pre ++ t :: rest)) code = some r) := by
  refine ⟨fun e => rfl, ?_, ?_⟩
  · intro tables h
    simp [get_hts_data, scanTables_eq_none code tables h]
  · intro pre t rest r hpre ht
    simp [get_hts_data, scanTables_append code pre (t :: rest) hpre, scanTables, ht]

/-- C4 witness: a concrete two-table store where the second table matches. -/
theorem C4_witness :
    get_hts_data (Except.ok ([[{ hts_code := some "9999.99.99" }]] ++
      [{ hts_code := some "0101.21.00", duty_rate := some "5%",
         product_description := some "Live purebred breeding horses" }] :: []))
      "0101" = some exampleRow :=
  (C4_lookup_first_match "0101").2.2 [[{ hts_code := some "9999.99.99" }]]
    [exampleRow] [] exampleRow
    (by intro u hu; simp at hu; subst hu; decide) (by decide)

/-- C5: a shipment whose code matches no record yields the sentinel result:
description `HTS code not found`, rate text `Unknown`, rate kind `unknown`,
and every monetary field zero — the CIF value included, not computed from the
input costs (and an empty breakdown dict). -/
theorem C5_not_found (db : ScheduleDB) (p : ProductInfo)
    (h : get_hts_data db p.hts_code = none) :
    calculate_duty db p =
      { hts_code := p.hts_code, product_description := "HTS code not found",
        cif_value := 0, duty_rate := "Unknown", duty_amount := 0,
        total_landed_cost := 0, duty_type := "unknown", breakdown := [] } := by
  simp [calculate_duty, h, notFoundCalc]

/-- C5 witness: the empty store finds nothing. -/
theorem C5_witness :
    calculate_duty (Except.ok []) exampleProduct =
      { hts_code := "0101.21.00", product_description := "HTS code not found",
        cif_value := 0, duty_rate := "Unknown", duty_amount := 0,
        total_landed_cost := 0, duty_type := "unknown", breakdown := [] } :=
  C5_not_found (Except.ok []) exampleProduct rfl

/-- C9: the country-of-origin field of the shipment input does not influence
any field of the result of `calculate_duty`. -/
theorem C9_origin_irrelevant (db : ScheduleDB) (p : ProductInfo)
    (c1 c2 : String) :
    calculate_duty db { p with country_of_origin := c1 } =
      calculate_duty db { p with country_of_origin := c2 } := rfl

/-- C10: because the lookup is a substring match, the empty code matches any
row carrying a value in either code column: when the first table's first row
has one, looking up `""` returns exactly that row (the not-found sentinel is
unreachable). -/
theorem C10_empty_code_matches (r : Row) (t : List Row) (rest : List (List Row))
    (h : (r.hts_code.isSome || r.hts_number.isSome) = true) :
    get_hts_data (Except.ok ((r :: t) :: rest)) "" = some r := by
  have hmatch : rowMatches "" r = true := by
    rcases hc : r.hts_code with _ | v
    · rcases hn : r.hts_number with _ | w
      · rw [hc, hn] at h; simp at h
      · simp [rowMatches, likeContains, hc, hn, lowerChars, occursIn_nil]
    · simp [rowMatches, likeContains, hc, lowerChars, occursIn_nil]
  simp [get_hts_data, scanTables, List.find?_cons_of_pos _ hmatch]

/-- C10 witness. -/
theorem C10_witness :
    get_hts_data (Except.ok [[exampleRow]]) "" = some exampleRow :=
  C10_empty_code_matches exampleRow [] [] (by decide)

/-- C1 counterexample: in the not-found case the breakdown mapping does NOT
carry the six named components — it is the empty dict, so `product_cost` is
absent (against the claim that all six keys are present with value zero). -/
theorem C1_counterexample :
    (calculate_duty (Except.ok []) exampleProduct).breakdown = [] ∧
    List.lookup "product_cost"
      (calculate_duty (Except.ok []) exampleProduct).breakdown = none := by
  constructor <;> rfl

/-- C1 (amended): `total_landed_cost = cif_value + duty_amount` always holds;
in the found case the breakdown carries the six named components with
`cif_value = product_cost + freight + insurance`, while in the not-found case
all monetary fields are zero (so both invariants hold with all components
zero) but the breakdown dict is empty rather than listing the six
components. -/
theorem C1_invariants (db : ScheduleDB) (p : ProductInfo) :
    ((calculate_duty db p).total_landed_cost =
      (calculate_duty db p).cif_value + (calculate_duty db p).duty_amount) ∧
    (((calculate_duty db p).breakdown = [] ∧
      (calculate_duty db p).cif_value = 0 ∧
      (calculate_duty db p).duty_amount = 0 ∧
      (calculate_duty db p).total_landed_cost = 0) ∨
     ((calculate_duty db p).cif_value = p.cost + p.freight + p.insurance ∧
      (calculate_duty db p).breakdown =
        [("product_cost", p.cost), ("freight", p.freight),
         ("insurance", p.insurance),
         ("cif_value", (calculate_duty db p).cif_value),
         ("duty_amount", (calculate_duty db p).duty_amount),
         ("total_landed_cost", (calculate_duty db p).total_landed_cost)])) := by
  rcases h : get_hts_data db p.hts_code with _ | row
  · simp [calculate_duty, h, notFoundCalc]
  · simp [calculate_duty, h, foundCalc]

set_option maxRecDepth 100000 in
/-- C2: with a matched record, the duty amount follows the parsed rate kind
(`free` rates 0, percentages of the CIF value, cents per kilogram over the
total weight, dollars per unit over the quantity); on the spec's end-to-end
case (rate text `5%`, cost 1000, freight 100, insurance 50, quantity 10,
unit weight 100) this gives CIF 1150, duty 57.5 and total landed cost
1207.5. -/
theorem C2_duty_formulas :
    (∀ (db : ScheduleDB) (p : ProductInfo) (row : Row),
        get_hts_data db p.hts_code = some row →
        (((parse_duty_rate (some (row.duty_rate.getD "Free"))).1 = "free" →
            (calculate_duty db p).duty_amount = 0) ∧
         ((parse_duty_rate (some (row.duty_rate.getD "Free"))).1 = "percentage" →
            (calculate_duty db p).duty_amount =
              (parse_duty_rate (some (row.duty_rate.getD "Free"))).2 / 100 *
                (p.cost + p.freight + p.insurance)) ∧
         ((parse_duty_rate (some (row.duty_rate.getD "Free"))).1 = "cents_per_kg" →
            (calculate_duty db p).duty_amount =
              (parse_duty_rate (some (row.duty_rate.getD "Free"))).2 / 100 *
                ((p.quantity : ℚ) * p.unit_weight)) ∧
         ((parse_duty_rate (some (row.duty_rate.getD "Free"))).1 = "dollars_per_unit" →
            (calculate_duty db p).duty_amount =
              (parse_duty_rate (some (row.duty_rate.getD "Free"))).2 *
                (p.quantity : ℚ)))) ∧
    (calculate_duty exampleDB exampleProduct).cif_value = 1150 ∧
    (calculate_duty exampleDB exampleProduct).duty_amount = 115 / 2 ∧
    (calculate_duty exampleDB exampleProduct).total_landed_cost = 2415 / 2 := by
  refine ⟨?_, ?_, ?_, ?_⟩
  · intro db p row h
    have hc := calculate_duty_found db p row h
    refine ⟨fun hk => ?_, fun hk => ?_, fun hk => ?_, fun hk => ?_⟩ <;>
      simp [hc, foundCalc, calculate_duty_amount, hk]
  · with_unfolding_all decide
  · with_unfolding_all decide
  · with_unfolding_all decide

set_option maxRecDepth 100000 in
/-- C2 witness: the percentage branch applied to the end-to-end example. -/
theorem C2_witness :
    (calculate_duty exampleDB exampleProduct).duty_amount =
      (parse_duty_rate (some (exampleRow.duty_rate.getD "Free"))).2 / 100 *
        (exampleProduct.cost + exampleProduct.freight + exampleProduct.insurance) :=
  ((C2_duty_formulas.1 exampleDB exampleProduct exampleRow
      (by with_unfolding_all decide)).2.1 (by with_unfolding_all decide))

theorem parseCore_eq_free_iff (s : List Char) :
    parseCore s = ("free", 0) ↔
      ((occursIn "free".data s || s == "0".data) ||
       ((searchPercent s).isNone && (searchCentsKg s).isNone &&
        (searchDollar s).isNone)) = true := by
  have hpf : ("percentage" : String) ≠ "free" := by decide
  have hcf : ("cents_per_kg" : String) ≠ "free" := by decide
  have hdf : ("dollars_per_unit" : String) ≠ "free" := by decide
  by_cases h1 : (occursIn "free".data s || s == "0".data) = true
  · simp [parseCore, h1]
  · have h1' : (occursIn "free".data s || s == "0".data) = false := by
      simpa using h1
    rcases hp : searchPercent s with _ | g
    · rcases hc : searchCentsKg s with _ | g
      · rcases hd : searchDollar s with _ | g
        · simp [parseCore, h1', hp, hc, hd]
        · simp [parseCore, h1', hp, hc, hd, Prod.ext_iff, hdf]
      · simp [parseCore, h1', hp, hc, Prod.ext_iff, hcf]
    · simp [parseCore, h1', hp, Prod.ext_iff, hpf]

/-- C3: the rate parser is a total function, and it returns the free rate
`(free, 0)` exactly for the inputs that are missing, empty, contain the word
`free` (case-insensitively), equal `0` after trimming, or match none of the
three patterns; every other input gets the kind and numeric value of the
first matching pattern in the order percentage, cents-per-kilogram,
dollars. -/
theorem C3_parse_characterization :
    (∀ o, parse_duty_rate o = ("free", 0) ↔ freeCond o = true) ∧
    (∀ s g, s ≠ "" → preFree s = false →
        searchPercent (normChars s.data) = some g →
        parse_duty_rate (some s) = ("percentage", floatOfGroup g)) ∧
    (∀ s g, s ≠ "" → preFree s = false →
        searchPercent (normChars s.data) = none →
        searchCentsKg (normChars s.data) = some g →
        parse_duty_rate (some s) = ("cents_per_kg", floatOfGroup g)) ∧
    (∀ s g, s ≠ "" → preFree s = false →
        searchPercent (normChars s.data) = none →
        searchCentsKg (normChars s.data) = none →
        searchDollar (normChars s.data) = some g →
        parse_duty_rate (some s) = ("dollars_per_unit", floatOfGroup g)) := by
  refine ⟨?_, ?_, ?_, ?_⟩
  · intro o
    match o with
    | none => simp [parse_duty_rate, freeCond]
    | some s0 =>
      by_cases h0 : s0 = ""
      · subst h0; simp [parse_duty_rate, freeCond]
      · have hb : (s0 == "") = false := by simpa using h0
        simp only [parse_duty_rate, freeCond, hb, Bool.false_or,
          Bool.false_eq_true, if_false]
        rw [parseCore_eq_free_iff]
        simp [preFree, patternsNone]
  · intro s g hne hpre hsp
    have hb : (s == "") = false := by simpa using hne
    have hpre' :
        (occursIn "free".data (normChars s.data) ||
         normChars s.data == "0".data) = false := hpre
    simp [parse_duty_rate, hb, parseCore, hpre', hsp]
  · intro s g hne hpre hsp hsc
    have hb : (s == "") = false := by simpa using hne
    have hpre' :
        (occursIn "free".data (normChars s.data) ||
         normChars s.data == "0".data) = false := hpre
    simp [parse_duty_rate, hb, parseCore, hpre', hsp, hsc]
  · intro s g hne hpre hsp hsc hsd
    have hb : (s == "") = false := by simpa using hne
    have hpre' :
        (occursIn "free".data (normChars s.data) ||
         normChars s.data == "0".data) = false := hpre
    simp [parse_duty_rate, hb, parseCore, hpre', hsp, hsc, hsd]

/-- C3 witness: `5%` is not in the free class and parses as a percentage. -/
theorem C3_witness :
    parse_duty_rate (some "5%") = ("percentage", floatOfGroup ['5']) :=
  C3_parse_characterization.2.1 "5%" ['5'] (by decide) (by decide) (by decide)

/-- C8: the pattern checks are applied by priority — whenever the percentage
pattern matches (whatever else also matches, the dollar pattern included),
the result kind is `percentage`; whenever the percentage pattern does not
match but the cents-per-kilogram one does, the kind is `cents_per_kg`; in
particular a string carrying both a dollar and a percent pattern is
classified as a percentage. -/
theorem C8_pattern_priority :
    (∀ s g, s ≠ "" → preFree s = false →
        searchPercent (normChars s.data) = some g →
        (parse_duty_rate (some s)).1 = "percentage") ∧
    (∀ s g, s ≠ "" → preFree s = false →
        searchPercent (normChars s.data) = none →
        searchCentsKg (normChars s.data) = some g →
        (parse_duty_rate (some s)).1 = "cents_per_kg") ∧
    ((searchDollar (normChars "$2.00 each or 5%".data)).isSome = true ∧
     parse_duty_rate (some "$2.00 each or 5%") = ("percentage", 5)) := by
  refine ⟨?_, ?_, by with_unfolding_all decide⟩
  · intro s g hne hpre hsp
    have hb : (s == "") = false := by simpa using hne
    have hpre' :
        (occursIn "free".data (normChars s.data) ||
         normChars s.data == "0".data) = false := hpre
    simp [parse_duty_rate, hb, parseCore, hpre', hsp]
  · intro s g hne hpre hsp hsc
    have hb : (s == "") = false := by simpa using hne
    have hpre' :
        (occursIn "free".data (normChars s.data) ||
         normChars s.data == "0".data) = false := hpre
    simp [parse_duty_rate, hb, parseCore, hpre', hsp, hsc]

/-- C8 witness: a string matching both the dollar and the percentage pattern
is classified by the earlier rule. -/
theorem C8_witness : (parse_duty_rate (some "$2.00 each or 5%")).1 = "percentage" :=
  C8_pattern_priority.1 "$2.00 each or 5%" ['5'] (by decide) (by decide)
    (by decide)

set_option maxRecDepth 1000000 in
/-- C6 (code bug): in a two-row batch whose second row has a non-numeric cost
cell, the report does have length 2 in input order and row 1 does carry an
error entry — but row 0, which the engine calculates successfully, is ALSO
recorded as an error row: re-parsing its own formatted output calls
`float` on the dollar-prefixed amount `$57.50`, which raises `ValueError`,
so no successfully calculated row ever yields a normal result row. -/
theorem C6_batch_row_isolation_bug :
    processBatch exampleDB [exampleBatchRow, badCostBatchRow] =
      [{ htsCode := "0101.21.00", productCost := Cell.num 1000, cifValue := 0,
         dutyAmount := 0, totalLandedCost := 0,
         error := some "ValueError: could not convert string to float" },
       { htsCode := "0101.21.00", productCost := Cell.str "abc", cifValue := 0,
         dutyAmount := 0, totalLandedCost := 0,
         error := some "TypeError: can only concatenate str to str" }] := by
  with_unfolding_all decide

set_option maxRecDepth 1000000 in
/-- C7 (code bug): the engine computes duty 57.5 and total landed cost 1207.5
for the end-to-end example, and its textual representation carries the stable
labelled lines with two-decimal currency values — but the batch tab's
re-parsing of those lines feeds `float` the dollar-prefixed text `$57.50`,
which raises, so the batch row records an error with zeroed amount columns
instead of the engine's values. -/
theorem C7_batch_columns_reparse_bug :
    (calculate_duty exampleDB exampleProduct).duty_amount = 115 / 2 ∧
    (calculate_duty exampleDB exampleProduct).total_landed_cost = 2415 / 2 ∧
    quick_duty_calculation exampleDB exampleBatchRow =
      "HTS Code: 0101.21.00" ++
      "\nProduct: Live purebred breeding horses" ++
      "\n\nCost Breakdown:" ++
      "\n- Product Cost: $1000.00" ++
      "\n- Freight: $100.00" ++
      "\n- Insurance: $50.00" ++
      "\n- CIF Value: $1150.00" ++
      "\n\nDuty Calculation:" ++
      "\n- Duty Rate: 5%" ++
      "\n- Duty Type: percentage" ++
      "\n- Duty Amount: $57.50" ++
      "\n\nTotal Landed Cost: $1207.50" ∧
    processRow exampleDB exampleBatchRow =
      { htsCode := "0101.21.00", productCost := Cell.num 1000, cifValue := 0,
        dutyAmount := 0, totalLandedCost := 0,
        error := some "ValueError: could not convert string to float" } := by
  with_unfolding_all decide
